import Mathlib

/-! # The `jx prompt` command (`pkg/jx/cmd/prompt.go`)

A shallow embedding of `PromptOptions`, `NewCmdPrompt` and `PromptOptions.Run`.

* Go strings are Lean `String`s, `[]string` is `List String` (a nil slice is `[]`).
* The collaborators whose code lives outside `prompt.go` (the client factory,
  `kube.GetDevNamespace`, `cmdutil.GetColor` and `color.Color.Sprint`) are the fields
  of `Collaborators`; `Run` is parametric in them.
* The effects of `Run` are threaded explicitly through `Effects`: the texts written to
  `o.Out` and the arguments of every `cmdutil.GetColor` call, both oldest first.
* `Run` returns the Go `error` as an `Option` (`none` is `nil`) next to the effects.
-/

namespace Jx

/-! ## Constants and the options record -/

/-- The constant `optionLabelColor` (prompt.go line 14). -/
def optionLabelColor : String := "label-color"

/-- The constant `optionTeamColor` (prompt.go line 15). -/
def optionTeamColor : String := "team-color"

/-- The constant `optionEnvColor` (prompt.go line 16). -/
def optionEnvColor : String := "env-color"

/-- The struct `PromptOptions` (prompt.go lines 20-35). The embedded `CommonOptions`
(factory, output stream) is carried by `Collaborators` and `Effects`. -/
structure PromptOptions where
  NoLabel : Bool
  ShowIcon : Bool
  Prefix : String
  Label : String
  Separator : String
  Divider : String
  Suffix : String
  LabelColor : List String
  TeamColor : List String
  EnvColor : List String
deriving DecidableEq, Repr

/-- The Go zero value of `PromptOptions`, which is what `&PromptOptions{...}` at lines
56-62 leaves in every field declared at lines 23-34. -/
def PromptOptions.zero : PromptOptions :=
  { NoLabel := false, ShowIcon := false, Prefix := "", Label := "", Separator := "",
    Divider := "", Suffix := "", LabelColor := [], TeamColor := [], EnvColor := [] }

/-! ## Flag registration (`NewCmdPrompt`) -/

/-- The `*string` arguments that `NewCmdPrompt` hands to `StringVarP`. -/
inductive StringPtr
  | Prefix | Label | Separator | Divider | Suffix
deriving DecidableEq, Repr

/-- The `*[]string` arguments that `NewCmdPrompt` hands to `StringArrayVarP`. -/
inductive StringArrayPtr
  | LabelColor | TeamColor | EnvColor
deriving DecidableEq, Repr

/-- The `*bool` arguments that `NewCmdPrompt` hands to `BoolVarP`. -/
inductive BoolPtr
  | NoLabel | ShowIcon
deriving DecidableEq, Repr

/-- Store through a `*string`. -/
def StringPtr.store (p : StringPtr) (v : String) (o : PromptOptions) : PromptOptions :=
  match p with
  | .Prefix => { o with Prefix := v }
  | .Label => { o with Label := v }
  | .Separator => { o with Separator := v }
  | .Divider => { o with Divider := v }
  | .Suffix => { o with Suffix := v }

/-- Store through a `*[]string`. -/
def StringArrayPtr.store (p : StringArrayPtr) (v : List String) (o : PromptOptions) :
    PromptOptions :=
  match p with
  | .LabelColor => { o with LabelColor := v }
  | .TeamColor => { o with TeamColor := v }
  | .EnvColor => { o with EnvColor := v }

/-- Store through a `*bool`. -/
def BoolPtr.store (p : BoolPtr) (v : Bool) (o : PromptOptions) : PromptOptions :=
  match p with
  | .NoLabel => { o with NoLabel := v }
  | .ShowIcon => { o with ShowIcon := v }

/-- Where a registered flag writes its value. -/
inductive FlagTarget
  | str (p : StringPtr)
  | strArray (p : StringArrayPtr)
  | bool (p : BoolPtr)
deriving DecidableEq, Repr

/-- One entry of the command's flag set: long name, shorthand and destination. -/
structure Flag where
  name : String
  shorthand : String
  target : FlagTarget
deriving DecidableEq, Repr

/-- The command under construction: the options record the flags point into, and the
flags registered so far (oldest first). -/
structure Command where
  options : PromptOptions
  flags : List Flag
deriving DecidableEq, Repr

/-- `cmd.Flags().StringVarP(p, name, shorthand, value, usage)`: pflag stores the default
`value` through `p` at registration and records the flag. -/
def StringVarP (p : StringPtr) (name shorthand value : String) (cmd : Command) : Command :=
  { options := p.store value cmd.options,
    flags := cmd.flags ++ [{ name := name, shorthand := shorthand, target := .str p }] }

/-- `cmd.Flags().StringArrayVarP(p, name, shorthand, value, usage)`: pflag stores the
default `value` through `p` at registration and records the flag. -/
def StringArrayVarP (p : StringArrayPtr) (name shorthand : String) (value : List String)
    (cmd : Command) : Command :=
  { options := p.store value cmd.options,
    flags := cmd.flags ++ [{ name := name, shorthand := shorthand, target := .strArray p }] }

/-- `cmd.Flags().BoolVarP(p, name, shorthand, value, usage)`: pflag stores the default
`value` through `p` at registration and records the flag. -/
def BoolVarP (p : BoolPtr) (name shorthand : String) (value : Bool) (cmd : Command) :
    Command :=
  { options := p.store value cmd.options,
    flags := cmd.flags ++ [{ name := name, shorthand := shorthand, target := .bool p }] }

/-- `NewCmdPrompt` (prompt.go lines 55-89): the options record starts at its zero value
and the ten registrations of lines 75-86 run in order. Line 83 registers
`optionEnvColor` against `&options.TeamColor`, as in the source. -/
def NewCmdPrompt : Command :=
  let cmd : Command := { options := PromptOptions.zero, flags := [] }
  let cmd := StringVarP .Prefix "prefix" "p" "(" cmd
  let cmd := StringVarP .Label "label" "l" "k8s" cmd
  let cmd := StringVarP .Separator "separator" "s" "|" cmd
  let cmd := StringVarP .Divider "divider" "d" ":" cmd
  let cmd := StringVarP .Suffix "suffix" "x" ")" cmd
  let cmd := StringArrayVarP .LabelColor optionLabelColor "" ["blue"] cmd
  let cmd := StringArrayVarP .TeamColor optionTeamColor "" ["cyan"] cmd
  let cmd := StringArrayVarP .TeamColor optionEnvColor "" ["cyan"] cmd
  let cmd := BoolVarP .NoLabel "no-label" "" false cmd
  let cmd := BoolVarP .ShowIcon "icon" "i" false cmd
  cmd

/-! ## Running the command (`PromptOptions.Run`) -/

/-- The code `Run` calls but `prompt.go` does not define: `o.Factory.CreateClient()`,
`kube.GetDevNamespace`, `cmdutil.GetColor` and `(*color.Color).Sprint`. `ε` is the type
of errors, `κ` of kube clients, `γ` of resolved colors. -/
structure Collaborators (ε κ γ : Type) where
  CreateClient : Except ε (κ × String)
  GetDevNamespace : κ → String → Except ε (String × String)
  GetColor : String → List String → Except ε γ
  Sprint : γ → String → String

/-- What `Run` does to the outside: `out` lists the texts written to `o.Out`,
`colorCalls` lists the `(optionName, colorNames)` argument pairs of the calls to
`cmdutil.GetColor`; both oldest first. -/
structure Effects where
  out : List String
  colorCalls : List (String × List String)
deriving DecidableEq, Repr

/-- A call `cmdutil.GetColor(optionName, colorNames)`, recorded in the effects. -/
def callGetColor {ε κ γ : Type} (w : Collaborators ε κ γ) (optionName : String)
    (colorNames : List String) (fx : Effects) : Except ε γ × Effects :=
  (w.GetColor optionName colorNames,
   { fx with colorCalls := fx.colorCalls ++ [(optionName, colorNames)] })

/-- `strings.Join(elems, sep)`. -/
def stringsJoin (elems : List String) (sep : String) : String :=
  sep.intercalate elems

/-- The formatting loop of `fmt.Sprintf` for formats made of literal characters and
`%s` verbs: a `%s` is replaced by the next argument, any other character is copied. -/
def SprintfAux : List Char → List String → List Char
  | [], _ => []
  | '%' :: 's' :: rest, a :: args => a.data ++ SprintfAux rest args
  | c :: rest, args => c :: SprintfAux rest args

/-- `fmt.Sprintf(format, args...)` on string arguments. -/
def Sprintf (format : String) (args : List String) : String :=
  ⟨SprintfAux format.data args⟩

/-- Modelled from the spec: `CommonOptions.Printf` is declared outside `prompt.go`; the
formatted text is delivered to the output sink `o.Out` in a single write. -/
def Printf (format : String) (args : List String) (fx : Effects) : Effects :=
  { fx with out := fx.out ++ [Sprintf format args] }

/-- The string literal assigned to `label` at prompt.go line 124: U+2638, U+FE0F and
two spaces. -/
def iconLabel : String := "☸️  "

/-- `PromptOptions.Run` (prompt.go lines 92-138). -/
def Run {ε κ γ : Type} (w : Collaborators ε κ γ) (o : PromptOptions) (fx : Effects) :
    Option ε × Effects :=
  match w.CreateClient with
  | .error err => (some err, fx)
  | .ok (kubeClient, currentNs) =>
  match w.GetDevNamespace kubeClient currentNs with
  | .error err => (some err, fx)
  | .ok (team, env) =>
  let label := o.Label
  let separator := o.Separator
  let divider := o.Divider
  let pfx := o.Prefix
  let suffix := o.Suffix
  match callGetColor w optionLabelColor o.LabelColor fx with
  | (.error err, fx) => (some err, fx)
  | (.ok labelColor, fx) =>
  match callGetColor w optionLabelColor o.TeamColor fx with
  | (.error err, fx) => (some err, fx)
  | (.ok teamColor, fx) =>
  match callGetColor w optionLabelColor o.EnvColor fx with
  | (.error err, fx) => (some err, fx)
  | (.ok envColor, fx) =>
  let (label, separator) :=
    if o.NoLabel then ("", "")
    else if o.ShowIcon then (w.Sprint labelColor iconLabel, separator)
    else (w.Sprint labelColor label, separator)
  let team := w.Sprint teamColor team
  let (divider, env) :=
    if env = "" then ("", env)
    else (divider, w.Sprint envColor env)
  (none, Printf "%s\n" [stringsJoin [pfx, label, separator, team, divider, env, suffix] ""] fx)

/-! ## The color resolver of the specification -/

/-- The two error kinds of the specification (section 7). -/
inductive PromptError
  | NamespaceLookupError (msg : String)
  | UnsupportedColorError (optionName : String) (names : List String)
deriving DecidableEq, Repr

/-- Modelled from the spec: the scan of `ColorResolver.resolve` (section 4.1), whose code
(`cmdutil.GetColor`) is outside `prompt.go`. It walks `names` in order and stops at the
first name the supported table recognizes. -/
def resolveScan {γ : Type} (table : String → Option γ) : List String → Option γ
  | [] => none
  | name :: rest =>
    match table name with
    | some style => some style
    | none => resolveScan table rest

/-- Modelled from the spec: `ColorResolver.resolve` (section 4.1), standing for the
missing body of `cmdutil.GetColor`. It returns the style of the first recognized name;
if no name is recognized it fails with `UnsupportedColorError`, which carries the option
name and the full list of unrecognized names. -/
def GetColor {γ : Type} (table : String → Option γ) (optionName : String)
    (colorNames : List String) : Except PromptError γ :=
  match resolveScan table colorNames with
  | some style => .ok style
  | none => .error (.UnsupportedColorError optionName colorNames)

/-- Modelled from the spec: the supported table of section 4.1 (`black, red, green,
yellow, blue, magenta, cyan, white`), each name with its ANSI foreground escape. -/
def supportedColors : String → Option String
  | "black" => some "\x1b[30m"
  | "red" => some "\x1b[31m"
  | "green" => some "\x1b[32m"
  | "yellow" => some "\x1b[33m"
  | "blue" => some "\x1b[34m"
  | "magenta" => some "\x1b[35m"
  | "cyan" => some "\x1b[36m"
  | "white" => some "\x1b[37m"
  | _ => none

/-! ## Fixtures: concrete collaborators and the scenarios of the specification -/

/-- Identity styling: the lookup yields `(team, env)`, every color list resolves and
`Sprint` returns its argument. -/
def identityWorld (team env : String) : Collaborators PromptError Unit Unit :=
  { CreateClient := .ok ((), "jx"),
    GetDevNamespace := fun _ _ => .ok (team, env),
    GetColor := fun _ _ => .ok (),
    Sprint := fun _ s => s }

/-- ANSI styling over the resolver of the specification: the lookup yields `lookup`,
colors resolve through `supportedColors`, and `Sprint` wraps its argument between the
color escape and the reset escape. -/
def ansiWorld (lookup : Except PromptError (String × String)) :
    Collaborators PromptError Unit String :=
  { CreateClient := .ok ((), "jx"),
    GetDevNamespace := fun _ _ => lookup,
    GetColor := GetColor supportedColors,
    Sprint := fun c s => c ++ s ++ "\x1b[0m" }

/-- A factory that cannot create its client. -/
def noClientWorld (err : PromptError) : Collaborators PromptError Unit String :=
  { CreateClient := .error err,
    GetDevNamespace := fun _ _ => .ok ("staging", "jx-staging"),
    GetColor := GetColor supportedColors,
    Sprint := fun c s => c ++ s ++ "\x1b[0m" }

/-- The configuration of Scenario A of the specification (section 8). -/
def scenarioA : PromptOptions :=
  { NoLabel := false, ShowIcon := false, Prefix := "(", Label := "k8s", Separator := "|",
    Divider := ":", Suffix := ")", LabelColor := ["blue"], TeamColor := ["cyan"],
    EnvColor := ["cyan"] }

/-- The effects before anything happened. -/
def Effects.none : Effects := { out := [], colorCalls := [] }

/-! ## Auxiliary facts -/

/-- The format of line 136 renders its argument followed by one newline. -/
theorem Sprintf_line (s : String) : Sprintf "%s\n" [s] = s ++ "\n" := by
  apply String.ext
  simp [Sprintf, SprintfAux]

/-- Joining seven strings with the empty separator concatenates them. -/
theorem stringsJoin_seven (a b c d e f g : String) :
    stringsJoin [a, b, c, d, e, f, g] "" = a ++ (b ++ (c ++ (d ++ (e ++ (f ++ g))))) := by
  simp [stringsJoin, String.intercalate, String.intercalate.go, String.append_assoc]

/-- The whole of `Run` once the lookup and the three resolutions have succeeded. -/
theorem Run_of_success {ε κ γ : Type} (w : Collaborators ε κ γ) (o : PromptOptions)
    (fx : Effects) (kubeClient : κ) (currentNs team env : String)
    (labelColor teamColor envColor : γ)
    (hclient : w.CreateClient = .ok (kubeClient, currentNs))
    (hns : w.GetDevNamespace kubeClient currentNs = .ok (team, env))
    (hl : w.GetColor optionLabelColor o.LabelColor = .ok labelColor)
    (ht : w.GetColor optionLabelColor o.TeamColor = .ok teamColor)
    (he : w.GetColor optionLabelColor o.EnvColor = .ok envColor) :
    Run w o fx =
      (none,
       { out := fx.out ++
           [o.Prefix ++
             ((if o.NoLabel then ""
               else w.Sprint labelColor (if o.ShowIcon then iconLabel else o.Label)) ++
             ((if o.NoLabel then "" else o.Separator) ++
             (w.Sprint teamColor team ++
             ((if env = "" then "" else o.Divider) ++
             ((if env = "" then "" else w.Sprint envColor env) ++
             (o.Suffix ++ "\n"))))))],
         colorCalls := fx.colorCalls ++
           [(optionLabelColor, o.LabelColor), (optionLabelColor, o.TeamColor),
            (optionLabelColor, o.EnvColor)] }) := by
  simp only [Run, hclient, hns, callGetColor, hl, ht, he, Printf, Sprintf_line]
  by_cases h1 : o.NoLabel = true <;> by_cases h2 : o.ShowIcon = true <;>
    by_cases h3 : env = "" <;>
    simp [h1, h2, h3, stringsJoin_seven, String.append_assoc]

/-- A text without newline, followed by the terminator, has exactly one newline, and
it is its last character. -/
theorem one_newline_last (joined : String) (h : '\n' ∉ joined.data) :
    (joined ++ "\n").data.count '\n' = 1 ∧ (joined ++ "\n").data.getLast? = some '\n' := by
  have hnl : ("\n" : String).data = ['\n'] := rfl
  rw [String.data_append, hnl]
  constructor
  · rw [List.count_append, List.count_eq_zero_of_not_mem h]
    rfl
  · exact List.getLast?_concat _

/-- Concatenation adds no newline. -/
theorem not_mem_append_data (a b : String) (ha : '\n' ∉ a.data) (hb : '\n' ∉ b.data) :
    '\n' ∉ (a ++ b).data := by
  simp [String.data_append, ha, hb]

/-- The scan skips a run of unrecognized names. -/
theorem resolveScan_skip {γ : Type} (table : String → Option γ) (pre rest : List String)
    (h : ∀ n ∈ pre, table n = none) :
    resolveScan table (pre ++ rest) = resolveScan table rest := by
  induction pre with
  | nil => rfl
  | cons n pre ih =>
    have hn : table n = none := h n (List.mem_cons_self n pre)
    have hpre : ∀ m ∈ pre, table m = none := fun m hm => h m (List.mem_cons_of_mem n hm)
    simp [resolveScan, hn, ih hpre]

/-- The scan finds nothing exactly when no name is recognized. -/
theorem resolveScan_eq_none {γ : Type} (table : String → Option γ) (names : List String) :
    resolveScan table names = none ↔ ∀ n ∈ names, table n = none := by
  induction names with
  | nil => simp [resolveScan]
  | cons n names ih =>
    cases hn : table n with
    | none => simp [resolveScan, hn, ih]
    | some style => simp [resolveScan, hn]

/-! ## Assembly of the prompt line -/

/-- C1: with `NoLabel = false`, `ShowIcon = false` and a non-empty `env`, once the lookup
and the three color resolutions succeed, `Run` returns no error and hands the sink
exactly `Prefix ++ Sprint labelColor Label ++ Separator ++ Sprint teamColor team ++
Divider ++ Sprint envColor env ++ Suffix` followed by the line terminator; with identity
styling Scenario A gives `(k8s|staging:jx-staging)`. -/
theorem Run_label_team_env {ε κ γ : Type} (w : Collaborators ε κ γ) (o : PromptOptions)
    (fx : Effects) (kubeClient : κ) (currentNs team env : String)
    (labelColor teamColor envColor : γ)
    (hNoLabel : o.NoLabel = false) (hShowIcon : o.ShowIcon = false) (henv : env ≠ "")
    (hclient : w.CreateClient = .ok (kubeClient, currentNs))
    (hns : w.GetDevNamespace kubeClient currentNs = .ok (team, env))
    (hl : w.GetColor optionLabelColor o.LabelColor = .ok labelColor)
    (ht : w.GetColor optionLabelColor o.TeamColor = .ok teamColor)
    (he : w.GetColor optionLabelColor o.EnvColor = .ok envColor) :
    ((Run w o fx).1 = none ∧
      (Run w o fx).2.out = fx.out ++
        [o.Prefix ++ w.Sprint labelColor o.Label ++ o.Separator ++ w.Sprint teamColor team
          ++ o.Divider ++ w.Sprint envColor env ++ o.Suffix ++ "\n"]) ∧
    (Run (identityWorld "staging" "jx-staging") scenarioA Effects.none).2.out =
      ["(k8s|staging:jx-staging)" ++ "\n"] := by
  refine ⟨?_, by decide⟩
  rw [Run_of_success w o fx kubeClient currentNs team env labelColor teamColor envColor
    hclient hns hl ht he]
  simp [hNoLabel, hShowIcon, henv, String.append_assoc]

/-- Scenario A under ANSI styling. -/
theorem Run_label_team_env_witness :
    (Run (ansiWorld (.ok ("staging", "jx-staging"))) scenarioA Effects.none).1 = none ∧
    (Run (ansiWorld (.ok ("staging", "jx-staging"))) scenarioA Effects.none).2.out =
      ["(\x1b[34mk8s\x1b[0m|\x1b[36mstaging\x1b[0m:\x1b[36mjx-staging\x1b[0m)\n"] :=
  (Run_label_team_env (ansiWorld (.ok ("staging", "jx-staging"))) scenarioA Effects.none
    () "jx" "staging" "jx-staging" "\x1b[34m" "\x1b[36m" "\x1b[36m"
    rfl rfl (by decide) rfl rfl rfl rfl rfl).1

/-- C2: when `env` is empty and the color resolutions succeed, the sink receives
`Prefix ++ label ++ separator ++ Sprint teamColor team ++ Suffix` and the line
terminator, where label and separator are the effective ones (empty under `NoLabel`,
else the styled icon or label and the configured separator): the divider is dropped
whatever `Divider` is, `env` is not styled, `team` is; with identity styling Scenario B
gives `(k8s|staging)`. -/
theorem Run_empty_env {ε κ γ : Type} (w : Collaborators ε κ γ) (o : PromptOptions)
    (fx : Effects) (kubeClient : κ) (currentNs team : String)
    (labelColor teamColor envColor : γ)
    (hclient : w.CreateClient = .ok (kubeClient, currentNs))
    (hns : w.GetDevNamespace kubeClient currentNs = .ok (team, ""))
    (hl : w.GetColor optionLabelColor o.LabelColor = .ok labelColor)
    (ht : w.GetColor optionLabelColor o.TeamColor = .ok teamColor)
    (he : w.GetColor optionLabelColor o.EnvColor = .ok envColor) :
    ((Run w o fx).1 = none ∧
      (Run w o fx).2.out = fx.out ++
        [o.Prefix
          ++ (if o.NoLabel then ""
              else w.Sprint labelColor (if o.ShowIcon then iconLabel else o.Label))
          ++ (if o.NoLabel then "" else o.Separator)
          ++ w.Sprint teamColor team ++ o.Suffix ++ "\n"]) ∧
    (Run (identityWorld "staging" "") scenarioA Effects.none).2.out =
      ["(k8s|staging)" ++ "\n"] := by
  refine ⟨?_, by decide⟩
  rw [Run_of_success w o fx kubeClient currentNs team "" labelColor teamColor envColor
    hclient hns hl ht he]
  simp [String.append_assoc]

/-- Scenario B under ANSI styling: the team is styled, the empty env contributes
nothing, not even the escapes of its color. -/
theorem Run_empty_env_witness :
    (Run (ansiWorld (.ok ("staging", ""))) scenarioA Effects.none).1 = none ∧
    (Run (ansiWorld (.ok ("staging", ""))) scenarioA Effects.none).2.out =
      ["(\x1b[34mk8s\x1b[0m|\x1b[36mstaging\x1b[0m)\n"] :=
  (Run_empty_env (ansiWorld (.ok ("staging", ""))) scenarioA Effects.none
    () "jx" "staging" "\x1b[34m" "\x1b[36m" "\x1b[36m" rfl rfl rfl rfl rfl).1

/-- C3: with `NoLabel = true`, once the color resolutions succeed, the sink receives
`Prefix ++ Sprint teamColor team ++ divider ++ env ++ Suffix` and the line terminator,
where divider and env are the effective ones (both empty when `env` is empty, else
`Divider` and the styled env); `Run` as a whole is unchanged by replacing `Label`,
`Separator` and `ShowIcon`; Scenario C gives `(staging:jx-staging)`. -/
theorem Run_no_label {ε κ γ : Type} (w : Collaborators ε κ γ) (o : PromptOptions)
    (fx : Effects) (kubeClient : κ) (currentNs team env : String)
    (labelColor teamColor envColor : γ)
    (hNoLabel : o.NoLabel = true)
    (hclient : w.CreateClient = .ok (kubeClient, currentNs))
    (hns : w.GetDevNamespace kubeClient currentNs = .ok (team, env))
    (hl : w.GetColor optionLabelColor o.LabelColor = .ok labelColor)
    (ht : w.GetColor optionLabelColor o.TeamColor = .ok teamColor)
    (he : w.GetColor optionLabelColor o.EnvColor = .ok envColor) :
    ((Run w o fx).1 = none ∧
      (Run w o fx).2.out = fx.out ++
        [o.Prefix ++ w.Sprint teamColor team
          ++ (if env = "" then "" else o.Divider)
          ++ (if env = "" then "" else w.Sprint envColor env)
          ++ o.Suffix ++ "\n"]) ∧
    (∀ (label separator : String) (showIcon : Bool),
      Run w { o with Label := label, Separator := separator, ShowIcon := showIcon } fx =
        Run w o fx) ∧
    (Run (identityWorld "staging" "jx-staging") { scenarioA with NoLabel := true }
        Effects.none).2.out = ["(staging:jx-staging)" ++ "\n"] := by
  refine ⟨?_, ?_, by decide⟩
  · rw [Run_of_success w o fx kubeClient currentNs team env labelColor teamColor envColor
      hclient hns hl ht he]
    simp [hNoLabel, String.append_assoc]
  · intro label separator showIcon
    simp [Run, hNoLabel]

/-- Scenario C under ANSI styling and with the icon requested: neither label, nor icon,
nor separator is rendered. -/
theorem Run_no_label_witness :
    (Run (ansiWorld (.ok ("staging", "jx-staging")))
        { scenarioA with NoLabel := true, ShowIcon := true } Effects.none).1 = none ∧
    (Run (ansiWorld (.ok ("staging", "jx-staging")))
        { scenarioA with NoLabel := true, ShowIcon := true } Effects.none).2.out =
      ["(\x1b[36mstaging\x1b[0m:\x1b[36mjx-staging\x1b[0m)\n"] :=
  (Run_no_label (ansiWorld (.ok ("staging", "jx-staging")))
    { scenarioA with NoLabel := true, ShowIcon := true } Effects.none
    () "jx" "staging" "jx-staging" "\x1b[34m" "\x1b[36m" "\x1b[36m"
    rfl rfl rfl rfl rfl rfl).1

/-- C4: with `NoLabel = false`, once the color resolutions succeed, the label segment
is the label style applied to the icon literal of line 124 when `ShowIcon` is true and
to `Label` when it is false, and the separator is `Separator` unstyled; when `ShowIcon`
is true, replacing `Label` does not change `Run`. The icon literal is U+2638, U+FE0F
and two spaces. -/
theorem Run_icon_label {ε κ γ : Type} (w : Collaborators ε κ γ) (o : PromptOptions)
    (fx : Effects) (kubeClient : κ) (currentNs team env : String)
    (labelColor teamColor envColor : γ)
    (hNoLabel : o.NoLabel = false)
    (hclient : w.CreateClient = .ok (kubeClient, currentNs))
    (hns : w.GetDevNamespace kubeClient currentNs = .ok (team, env))
    (hl : w.GetColor optionLabelColor o.LabelColor = .ok labelColor)
    (ht : w.GetColor optionLabelColor o.TeamColor = .ok teamColor)
    (he : w.GetColor optionLabelColor o.EnvColor = .ok envColor) :
    ((Run w o fx).1 = none ∧
      (Run w o fx).2.out = fx.out ++
        [o.Prefix
          ++ w.Sprint labelColor (if o.ShowIcon then iconLabel else o.Label)
          ++ o.Separator ++ w.Sprint teamColor team
          ++ (if env = "" then "" else o.Divider)
          ++ (if env = "" then "" else w.Sprint envColor env)
          ++ o.Suffix ++ "\n"]) ∧
    (o.ShowIcon = true → ∀ label : String, Run w { o with Label := label } fx = Run w o fx) ∧
    iconLabel.data.map Char.toNat = [0x2638, 0xFE0F, 0x20, 0x20] := by
  refine ⟨?_, ?_, by decide⟩
  · rw [Run_of_success w o fx kubeClient currentNs team env labelColor teamColor envColor
      hclient hns hl ht he]
    simp [hNoLabel, String.append_assoc]
  · intro hShowIcon label
    simp [Run, hNoLabel, hShowIcon]

/-- The icon replaces the configured label `k8s` under ANSI styling, and another label
renders the same. -/
theorem Run_icon_label_witness :
    (Run (ansiWorld (.ok ("staging", "jx-staging"))) { scenarioA with ShowIcon := true }
        Effects.none).2.out =
      ["(\x1b[34m☸️  \x1b[0m|\x1b[36mstaging\x1b[0m:\x1b[36mjx-staging\x1b[0m)\n"] ∧
    Run (ansiWorld (.ok ("staging", "jx-staging")))
        { scenarioA with ShowIcon := true, Label := "minikube" } Effects.none =
      Run (ansiWorld (.ok ("staging", "jx-staging"))) { scenarioA with ShowIcon := true }
        Effects.none :=
  ⟨(Run_icon_label (ansiWorld (.ok ("staging", "jx-staging")))
      { scenarioA with ShowIcon := true } Effects.none
      () "jx" "staging" "jx-staging" "\x1b[34m" "\x1b[36m" "\x1b[36m"
      rfl rfl rfl rfl rfl rfl).1.2,
   (Run_icon_label (ansiWorld (.ok ("staging", "jx-staging")))
      { scenarioA with ShowIcon := true } Effects.none
      () "jx" "staging" "jx-staging" "\x1b[34m" "\x1b[36m" "\x1b[36m"
      rfl rfl rfl rfl rfl rfl).2.1 rfl "minikube"⟩

/-! ## Failures -/

/-- C5: after a successful lookup, whichever of the three color resolutions fails first
in the order label, team, env, `Run` returns the error of that resolution and leaves the
sink as it was; the resolutions made up to that point are exactly label, then team, then
env. So if any of the three fails, `Run` returns the error of a failed resolution and
writes nothing. Nothing here depends on `NoLabel` or on `env` being empty. -/
theorem Run_color_error {ε κ γ : Type} (w : Collaborators ε κ γ) (o : PromptOptions)
    (fx : Effects) (kubeClient : κ) (currentNs team env : String)
    (hclient : w.CreateClient = .ok (kubeClient, currentNs))
    (hns : w.GetDevNamespace kubeClient currentNs = .ok (team, env)) :
    (∀ err, w.GetColor optionLabelColor o.LabelColor = .error err →
      Run w o fx =
        (some err,
         { out := fx.out,
           colorCalls := fx.colorCalls ++ [(optionLabelColor, o.LabelColor)] })) ∧
    (∀ labelColor err, w.GetColor optionLabelColor o.LabelColor = .ok labelColor →
      w.GetColor optionLabelColor o.TeamColor = .error err →
      Run w o fx =
        (some err,
         { out := fx.out,
           colorCalls := fx.colorCalls ++
             [(optionLabelColor, o.LabelColor), (optionLabelColor, o.TeamColor)] })) ∧
    (∀ labelColor teamColor err, w.GetColor optionLabelColor o.LabelColor = .ok labelColor →
      w.GetColor optionLabelColor o.TeamColor = .ok teamColor →
      w.GetColor optionLabelColor o.EnvColor = .error err →
      Run w o fx =
        (some err,
         { out := fx.out,
           colorCalls := fx.colorCalls ++
             [(optionLabelColor, o.LabelColor), (optionLabelColor, o.TeamColor),
              (optionLabelColor, o.EnvColor)] })) ∧
    ((∃ err, w.GetColor optionLabelColor o.LabelColor = .error err ∨
        w.GetColor optionLabelColor o.TeamColor = .error err ∨
        w.GetColor optionLabelColor o.EnvColor = .error err) →
      ∃ err, (Run w o fx).1 = some err ∧ (Run w o fx).2.out = fx.out ∧
        (w.GetColor optionLabelColor o.LabelColor = .error err ∨
          w.GetColor optionLabelColor o.TeamColor = .error err ∨
          w.GetColor optionLabelColor o.EnvColor = .error err)) := by
  refine ⟨?_, ?_, ?_, ?_⟩
  · intro err hl
    simp [Run, hclient, hns, callGetColor, hl]
  · intro labelColor err hl ht
    simp [Run, hclient, hns, callGetColor, hl, ht]
  · intro labelColor teamColor err hl ht he
    simp [Run, hclient, hns, callGetColor, hl, ht, he]
  · rintro ⟨err, hfail⟩
    cases hl : w.GetColor optionLabelColor o.LabelColor with
    | error el => exact ⟨el, by simp [Run, hclient, hns, callGetColor, hl]⟩
    | ok labelColor =>
      cases ht : w.GetColor optionLabelColor o.TeamColor with
      | error et => exact ⟨et, by simp [Run, hclient, hns, callGetColor, hl, ht]⟩
      | ok teamColor =>
        cases he : w.GetColor optionLabelColor o.EnvColor with
        | error ee => exact ⟨ee, by simp [Run, hclient, hns, callGetColor, hl, ht, he]⟩
        | ok envColor => simp [hl, ht, he] at hfail

/-- Three failing resolutions: a label color that fails although `NoLabel` hides
the label, a team color that fails, and an env color that fails although `env` is
empty. Each time the sink stays empty. -/
theorem Run_color_error_witness :
    Run (ansiWorld (.ok ("staging", "jx-staging")))
        { scenarioA with NoLabel := true, LabelColor := ["not-a-color"] } Effects.none =
      (some (.UnsupportedColorError "label-color" ["not-a-color"]),
       { out := [], colorCalls := [("label-color", ["not-a-color"])] }) ∧
    (Run (ansiWorld (.ok ("staging", "jx-staging")))
        { scenarioA with TeamColor := ["not-a-color"] } Effects.none).2.out = [] ∧
    Run (ansiWorld (.ok ("staging", "")))
        { scenarioA with EnvColor := ["not-a-color"] } Effects.none =
      (some (.UnsupportedColorError "label-color" ["not-a-color"]),
       { out := [],
         colorCalls := [("label-color", ["blue"]), ("label-color", ["cyan"]),
           ("label-color", ["not-a-color"])] }) :=
  ⟨(Run_color_error (ansiWorld (.ok ("staging", "jx-staging")))
      { scenarioA with NoLabel := true, LabelColor := ["not-a-color"] } Effects.none
      () "jx" "staging" "jx-staging" rfl rfl).1 _ rfl,
   congrArg (fun r => r.2.out)
    ((Run_color_error (ansiWorld (.ok ("staging", "jx-staging")))
      { scenarioA with TeamColor := ["not-a-color"] } Effects.none
      () "jx" "staging" "jx-staging" rfl rfl).2.1 "\x1b[34m" _ rfl rfl),
   (Run_color_error (ansiWorld (.ok ("staging", "")))
      { scenarioA with EnvColor := ["not-a-color"] } Effects.none
      () "jx" "staging" "" rfl rfl).2.2.1 "\x1b[34m" "\x1b[36m" _ rfl rfl rfl⟩

/-- C10: an error from creating the client or from `GetDevNamespace` is what `Run`
returns, with the effects untouched (no color resolution, nothing written); when the
lookup and the three color resolutions succeed, `Run` returns no error and appends one
text ending in the line terminator to the sink. -/
theorem Run_lookup {ε κ γ : Type} (w : Collaborators ε κ γ) (o : PromptOptions)
    (fx : Effects) :
    (∀ err, w.CreateClient = .error err → Run w o fx = (some err, fx)) ∧
    (∀ kubeClient currentNs err, w.CreateClient = .ok (kubeClient, currentNs) →
      w.GetDevNamespace kubeClient currentNs = .error err → Run w o fx = (some err, fx)) ∧
    (∀ kubeClient currentNs team env labelColor teamColor envColor,
      w.CreateClient = .ok (kubeClient, currentNs) →
      w.GetDevNamespace kubeClient currentNs = .ok (team, env) →
      w.GetColor optionLabelColor o.LabelColor = .ok labelColor →
      w.GetColor optionLabelColor o.TeamColor = .ok teamColor →
      w.GetColor optionLabelColor o.EnvColor = .ok envColor →
      (Run w o fx).1 = none ∧
        ∃ joined : String, (Run w o fx).2.out = fx.out ++ [joined ++ "\n"]) := by
  refine ⟨?_, ?_, ?_⟩
  · intro err hclient
    simp [Run, hclient]
  · intro kubeClient currentNs err hclient hns
    simp [Run, hclient, hns]
  · intro kubeClient currentNs team env labelColor teamColor envColor hclient hns hl ht he
    rw [Run_of_success w o fx kubeClient currentNs team env labelColor teamColor envColor
      hclient hns hl ht he]
    refine ⟨rfl, ?_⟩
    refine ⟨o.Prefix ++
      ((if o.NoLabel then ""
        else w.Sprint labelColor (if o.ShowIcon then iconLabel else o.Label)) ++
      ((if o.NoLabel then "" else o.Separator) ++
      (w.Sprint teamColor team ++
      ((if env = "" then "" else o.Divider) ++
      ((if env = "" then "" else w.Sprint envColor env) ++ o.Suffix))))), ?_⟩
    simp [String.append_assoc]

/-- Three runs: a factory without client, a failing namespace lookup, and
a run that succeeds. -/
theorem Run_lookup_witness :
    Run (noClientWorld (.NamespaceLookupError "no cluster")) scenarioA Effects.none =
      (some (.NamespaceLookupError "no cluster"), Effects.none) ∧
    Run (ansiWorld (.error (.NamespaceLookupError "no dev namespace"))) scenarioA
        Effects.none =
      (some (.NamespaceLookupError "no dev namespace"), Effects.none) ∧
    (Run (identityWorld "staging" "jx-staging") scenarioA Effects.none).1 = none :=
  ⟨(Run_lookup (noClientWorld (.NamespaceLookupError "no cluster")) scenarioA
      Effects.none).1 _ rfl,
   (Run_lookup (ansiWorld (.error (.NamespaceLookupError "no dev namespace"))) scenarioA
      Effects.none).2.1 () "jx" _ rfl rfl,
   ((Run_lookup (identityWorld "staging" "jx-staging") scenarioA Effects.none).2.2
      () "jx" "staging" "jx-staging" () () () rfl rfl rfl rfl rfl).1⟩

/-! ## The line written -/

/-- C9: when none of `Prefix`, `Label`, `Separator`, `Divider`, `Suffix`, `team`, `env`
contains a newline and `Sprint` adds none under the three resolved colors, a successful
`Run` returns no error and appends to the sink a single text, the string joined at line
136 followed by the terminator; the joined string has no newline, so the text written
has exactly one newline and it is its last character. -/
theorem Run_single_line {ε κ γ : Type} (w : Collaborators ε κ γ) (o : PromptOptions)
    (fx : Effects) (kubeClient : κ) (currentNs team env : String)
    (labelColor teamColor envColor : γ)
    (hPrefix : '\n' ∉ o.Prefix.data) (hLabel : '\n' ∉ o.Label.data)
    (hSeparator : '\n' ∉ o.Separator.data) (hDivider : '\n' ∉ o.Divider.data)
    (hSuffix : '\n' ∉ o.Suffix.data) (hteam : '\n' ∉ team.data) (henv : '\n' ∉ env.data)
    (hstyle : ∀ c : γ, c = labelColor ∨ c = teamColor ∨ c = envColor →
      ∀ s : String, '\n' ∉ s.data → '\n' ∉ (w.Sprint c s).data)
    (hclient : w.CreateClient = .ok (kubeClient, currentNs))
    (hns : w.GetDevNamespace kubeClient currentNs = .ok (team, env))
    (hl : w.GetColor optionLabelColor o.LabelColor = .ok labelColor)
    (ht : w.GetColor optionLabelColor o.TeamColor = .ok teamColor)
    (he : w.GetColor optionLabelColor o.EnvColor = .ok envColor) :
    (Run w o fx).1 = none ∧
    ∃ joined : String,
      joined = stringsJoin
        [o.Prefix,
         if o.NoLabel then ""
         else w.Sprint labelColor (if o.ShowIcon then iconLabel else o.Label),
         if o.NoLabel then "" else o.Separator,
         w.Sprint teamColor team,
         if env = "" then "" else o.Divider,
         if env = "" then "" else w.Sprint envColor env,
         o.Suffix] "" ∧
      (Run w o fx).2.out = fx.out ++ [joined ++ "\n"] ∧
      '\n' ∉ joined.data ∧
      (joined ++ "\n").data.count '\n' = 1 ∧
      (joined ++ "\n").data.getLast? = some '\n' := by
  have hempty : '\n' ∉ ("" : String).data := by decide
  have hicon : '\n' ∉ iconLabel.data := by decide
  have h1 : '\n' ∉ (if o.NoLabel then ""
      else w.Sprint labelColor (if o.ShowIcon then iconLabel else o.Label)).data := by
    by_cases hn : o.NoLabel = true
    · simp [hn]
    · by_cases hi : o.ShowIcon = true
      · simpa [hn, hi] using hstyle labelColor (Or.inl rfl) iconLabel hicon
      · simpa [hn, hi] using hstyle labelColor (Or.inl rfl) o.Label hLabel
  have h2 : '\n' ∉ (if o.NoLabel then "" else o.Separator).data := by
    by_cases hn : o.NoLabel = true
    · simp [hn]
    · simpa [hn] using hSeparator
  have h3 : '\n' ∉ (w.Sprint teamColor team).data :=
    hstyle teamColor (Or.inr (Or.inl rfl)) team hteam
  have h4 : '\n' ∉ (if env = "" then "" else o.Divider).data := by
    by_cases hv : env = ""
    · simp [hv]
    · simpa [hv] using hDivider
  have h5 : '\n' ∉ (if env = "" then "" else w.Sprint envColor env).data := by
    by_cases hv : env = ""
    · simp [hv]
    · simpa [hv] using hstyle envColor (Or.inr (Or.inr rfl)) env henv
  rw [Run_of_success w o fx kubeClient currentNs team env labelColor teamColor envColor
    hclient hns hl ht he]
  refine ⟨rfl, _, rfl, ?_, ?_⟩
  · simp [stringsJoin_seven, String.append_assoc]
  · have hjoined : '\n' ∉ (stringsJoin
        [o.Prefix,
         if o.NoLabel then ""
         else w.Sprint labelColor (if o.ShowIcon then iconLabel else o.Label),
         if o.NoLabel then "" else o.Separator,
         w.Sprint teamColor team,
         if env = "" then "" else o.Divider,
         if env = "" then "" else w.Sprint envColor env,
         o.Suffix] "").data := by
      rw [stringsJoin_seven]
      exact not_mem_append_data _ _ hPrefix (not_mem_append_data _ _ h1
        (not_mem_append_data _ _ h2 (not_mem_append_data _ _ h3
        (not_mem_append_data _ _ h4 (not_mem_append_data _ _ h5 hSuffix)))))
    exact ⟨hjoined, one_newline_last _ hjoined⟩

/-- Scenario A under ANSI styling: one text is written, it ends in the only newline it
contains. -/
theorem Run_single_line_witness :
    (Run (ansiWorld (.ok ("staging", "jx-staging"))) scenarioA Effects.none).1 = none ∧
    ∃ joined : String,
      joined = stringsJoin
        ["(", "\x1b[34m" ++ "k8s" ++ "\x1b[0m", "|", "\x1b[36m" ++ "staging" ++ "\x1b[0m",
         ":", "\x1b[36m" ++ "jx-staging" ++ "\x1b[0m", ")"] "" ∧
      (Run (ansiWorld (.ok ("staging", "jx-staging"))) scenarioA Effects.none).2.out =
        [joined ++ "\n"] ∧
      '\n' ∉ joined.data ∧
      (joined ++ "\n").data.count '\n' = 1 ∧
      (joined ++ "\n").data.getLast? = some '\n' :=
  Run_single_line (ansiWorld (.ok ("staging", "jx-staging"))) scenarioA Effects.none
    () "jx" "staging" "jx-staging" "\x1b[34m" "\x1b[36m" "\x1b[36m"
    (by decide) (by decide) (by decide) (by decide) (by decide) (by decide) (by decide)
    (by
      intro c hc s hs
      have hreset : '\n' ∉ ("\x1b[0m" : String).data := by decide
      have hcolor : '\n' ∉ c.data := by
        rcases hc with h | h | h <;> subst h <;> decide
      exact not_mem_append_data _ _ (not_mem_append_data _ _ hcolor hs) hreset)
    rfl rfl rfl rfl rfl

/-! ## Color resolution and option names -/

/-- C8: the resolver of the specification is first-match-wins. If the names before
`name` are all unrecognized and `name` is recognized with `style`, the result is
`style`; the resolver fails exactly when no name of the list is recognized, and then
with `UnsupportedColorError` carrying the option name and the list. Whenever `blue` is
in the table and `not-a-color` is not, `[not-a-color, blue]` resolves to the style of
`blue` and `[not-a-color]` fails. -/
theorem GetColor_first_match {γ : Type} (table : String → Option γ) (optionName : String)
    (colorNames : List String) :
    (∀ (pre post : List String) (name : String) (style : γ),
      colorNames = pre ++ name :: post → (∀ n ∈ pre, table n = none) →
      table name = some style → GetColor table optionName colorNames = .ok style) ∧
    ((∃ err, GetColor table optionName colorNames = .error err) ↔
      ∀ n ∈ colorNames, table n = none) ∧
    (∀ err, GetColor table optionName colorNames = .error err →
      err = .UnsupportedColorError optionName colorNames) ∧
    (∀ blue : γ, table "not-a-color" = none → table "blue" = some blue →
      GetColor table optionName ["not-a-color", "blue"] = .ok blue ∧
      GetColor table optionName ["not-a-color"] =
        .error (.UnsupportedColorError optionName ["not-a-color"])) := by
  refine ⟨?_, ?_, ?_, ?_⟩
  · intro pre post name style hsplit hpre hname
    have hscan : resolveScan table colorNames = some style := by
      rw [hsplit, resolveScan_skip table pre (name :: post) hpre]
      simp [resolveScan, hname]
    simp [GetColor, hscan]
  · constructor
    · rintro ⟨err, herr⟩
      cases hscan : resolveScan table colorNames with
      | none => exact (resolveScan_eq_none table colorNames).1 hscan
      | some style => simp [GetColor, hscan] at herr
    · intro hnone
      have hscan := (resolveScan_eq_none table colorNames).2 hnone
      exact ⟨.UnsupportedColorError optionName colorNames, by simp only [GetColor, hscan]⟩
  · intro err herr
    cases hscan : resolveScan table colorNames with
    | none =>
      simp only [GetColor, hscan] at herr
      exact (Except.error.inj herr).symm
    | some style => simp [GetColor, hscan] at herr
  · intro blue hnot hblue
    simp [GetColor, resolveScan, hnot, hblue]

/-- The two lists of the claim, and a longer one, against the supported table. -/
theorem GetColor_first_match_witness :
    GetColor supportedColors "label-color" ["not-a-color", "blue"] = .ok "\x1b[34m" ∧
    GetColor supportedColors "label-color" ["not-a-color"] =
      .error (.UnsupportedColorError "label-color" ["not-a-color"]) ∧
    GetColor supportedColors "label-color" ["not-a-color", "blue", "red"] =
      .ok "\x1b[34m" :=
  ⟨((GetColor_first_match supportedColors "label-color" []).2.2.2 "\x1b[34m" rfl rfl).1,
   ((GetColor_first_match supportedColors "label-color" []).2.2.2 "\x1b[34m" rfl rfl).2,
   (GetColor_first_match supportedColors "label-color" ["not-a-color", "blue", "red"]).1
     ["not-a-color"] ["red"] "blue" "\x1b[34m" rfl (by decide) rfl⟩

/-- C6, the code at the failing inputs: a team color list, and an env color list, that
do not resolve are both handed to the resolver under `optionLabelColor`, so the error
names `label-color`; the names `team-color` and `env-color` never reach the resolver. -/
theorem Run_resolves_under_label_color :
    Run (ansiWorld (.ok ("staging", "jx-staging")))
        { scenarioA with TeamColor := ["not-a-color"] } Effects.none =
      (some (.UnsupportedColorError "label-color" ["not-a-color"]),
       { out := [],
         colorCalls := [("label-color", ["blue"]), ("label-color", ["not-a-color"])] }) ∧
    Run (ansiWorld (.ok ("staging", "jx-staging")))
        { scenarioA with EnvColor := ["not-a-color"] } Effects.none =
      (some (.UnsupportedColorError "label-color" ["not-a-color"]),
       { out := [],
         colorCalls := [("label-color", ["blue"]), ("label-color", ["cyan"]),
           ("label-color", ["not-a-color"])] }) ∧
    optionTeamColor = "team-color" ∧ optionEnvColor = "env-color" ∧
    optionLabelColor = "label-color" := by
  decide

/-! ## Defaults -/

/-- C7, the code with no option overridden: `NewCmdPrompt` leaves `EnvColor` empty, not
`[cyan]`, because the `env-color` flag is registered against `TeamColor`; the other
nine fields hold the documented defaults. -/
theorem NewCmdPrompt_defaults :
    NewCmdPrompt.options =
      { NoLabel := false, ShowIcon := false, Prefix := "(", Label := "k8s",
        Separator := "|", Divider := ":", Suffix := ")", LabelColor := ["blue"],
        TeamColor := ["cyan"], EnvColor := [] } ∧
    NewCmdPrompt.options.EnvColor ≠ ["cyan"] ∧
    (NewCmdPrompt.flags.filter (fun f => f.name = optionEnvColor)).map (fun f => f.target) =
      [.strArray .TeamColor] ∧
    (NewCmdPrompt.flags.filter (fun f => f.target = .strArray .EnvColor)) = [] := by
  decide

end Jx
